import Mathlib

/-!
Verification of the single-option escrow contract (`src/contract.rs`).

The contract is a pure decision engine over one persisted record.  We embed
it shallowly: storage is an `Option State`, every entry point is a function
from (storage, env, info, payload) to `Except ContractError
(Option State × Response)`, where the returned storage is the post-state that
the host commits only on success.  Amounts are natural numbers (the source
uses `Uint128`), identities and denominations are strings, and the host's
`addr_validate` primitive is a parameter `api : String → Option String`.
-/

namespace OptionContract

/-- A (denomination, amount) pair, mirroring `cosmwasm_std::Coin`. -/
structure Coin where
  denom : String
  amount : Nat
  deriving DecidableEq, Repr

/-- The persisted option record, mirroring `state::State`. -/
structure State where
  creator : String
  owner : String
  collateral : List Coin
  counter_offer : List Coin
  expires : Nat
  deriving DecidableEq, Repr

/-- The contract's typed errors, mirroring `error::ContractError`.
`NotFound` stands for the storage-load failure (`StdError` via `?`) and
`InvalidRecipient` for a failed `deps.api.addr_validate`. -/
inductive ContractError where
  | OptionExpired (expired : Nat)
  | OptionNotExpired (expires : Nat)
  | Unauthorized
  | CounterOfferMismatch (offer : List Coin) (counter_offer : List Coin)
  | FundsSentWithBurn
  | NotFound
  | InvalidRecipient (recipient : String)
  deriving DecidableEq, Repr

/-- The host-supplied environment: the current block height. -/
structure Env where
  blockHeight : Nat
  deriving DecidableEq, Repr

/-- Caller identity and attached funds, mirroring `MessageInfo`. -/
structure MessageInfo where
  sender : String
  funds : List Coin
  deriving DecidableEq, Repr

/-- An outbound bank transfer instruction, mirroring `BankMsg::Send`. -/
inductive BankMsg where
  | Send (to_address : String) (amount : List Coin)
  deriving DecidableEq, Repr

/-- The successful result of an entry point: queued transfer instructions
plus observability attributes, mirroring `Response`. -/
structure Response where
  messages : List BankMsg
  attributes : List (String × String)
  deriving DecidableEq, Repr

/-- `Response::default()`: no messages, no attributes. -/
def Response.empty : Response := { messages := [], attributes := [] }

/-- The instantiate payload, mirroring `msg::InstantiateMsg`. -/
structure InstantiateMsg where
  counter_offer : List Coin
  expires : Nat
  deriving DecidableEq, Repr

/-- The execute payload variants, mirroring `msg::ExecuteMsg`. -/
inductive ExecuteMsg where
  | Transfer (recipient : String)
  | Execute
  | Burn
  deriving DecidableEq, Repr

/-- `CONFIG.load`: reading the singleton record fails when absent. -/
def load (storage : Option State) : Except ContractError State :=
  match storage with
  | some s => .ok s
  | none => .error .NotFound

/-- `instantiate` (contract.rs:15-49): reject an already-past expiry, else
save a fresh record with `creator = owner = sender`, `collateral = funds`. -/
def instantiate (storage : Option State) (env : Env) (info : MessageInfo)
    (msg : InstantiateMsg) : Except ContractError (Option State × Response) :=
  if msg.expires ≤ env.blockHeight then
    .error (.OptionExpired msg.expires)
  else
    let _ := storage
    .ok (some { creator := info.sender, owner := info.sender,
                collateral := info.funds, counter_offer := msg.counter_offer,
                expires := msg.expires },
         Response.empty)

/-- `execute_transfer` (contract.rs:73-92): owner-only; validate the
recipient, overwrite `owner`, move no funds. -/
def execute_transfer (api : String → Option String) (storage : Option State)
    (env : Env) (info : MessageInfo) (recipient : String) :
    Except ContractError (Option State × Response) :=
  let _ := env
  match load storage with
  | .error e => .error e
  | .ok state =>
    if info.sender ≠ state.owner then
      .error .Unauthorized
    else
      match api recipient with
      | none => .error (.InvalidRecipient recipient)
      | some validated =>
        .ok (some { state with owner := validated },
             { messages := [],
               attributes := [("action", "transfer"), ("owner", recipient)] })

/-- `execute_execute` (contract.rs:106-150): owner-only, before expiry,
funds must equal `counter_offer` (Vec equality); pay counter-offer to the
creator then collateral to the owner, and delete the record. -/
def execute_execute (storage : Option State) (env : Env) (info : MessageInfo) :
    Except ContractError (Option State × Response) :=
  match load storage with
  | .error e => .error e
  | .ok state =>
    if info.sender ≠ state.owner then
      .error .Unauthorized
    else if state.expires ≤ env.blockHeight then
      .error (.OptionExpired state.expires)
    else if info.funds ≠ state.counter_offer then
      .error (.CounterOfferMismatch info.funds state.counter_offer)
    else
      .ok (none,
           { messages := [BankMsg.Send state.creator state.counter_offer,
                          BankMsg.Send state.owner state.collateral],
             attributes := [("action", "execute")] })

/-- `execute_burn` (contract.rs:158-184): only after expiry, only with no
attached funds; return collateral to the creator and delete the record.
No ownership check. -/
def execute_burn (storage : Option State) (env : Env) (info : MessageInfo) :
    Except ContractError (Option State × Response) :=
  match load storage with
  | .error e => .error e
  | .ok state =>
    if env.blockHeight < state.expires then
      .error (.OptionNotExpired state.expires)
    else if !info.funds.isEmpty then
      .error .FundsSentWithBurn
    else
      .ok (none,
           { messages := [BankMsg.Send state.creator state.collateral],
             attributes := [("action", "burn")] })

/-- `execute` (contract.rs:52-66): dispatch over the message variants. -/
def execute (api : String → Option String) (storage : Option State) (env : Env)
    (info : MessageInfo) (msg : ExecuteMsg) :
    Except ContractError (Option State × Response) :=
  match msg with
  | .Transfer recipient => execute_transfer api storage env info recipient
  | .Execute => execute_execute storage env info
  | .Burn => execute_burn storage env info

/-- `query_config` (contract.rs:193-196): return the record verbatim, or a
not-found failure. -/
def query_config (storage : Option State) : Except ContractError State :=
  load storage

/-- A full invocation payload: either the instantiate entry point or one of
the execute variants. -/
inductive Msg where
  | Inst (m : InstantiateMsg)
  | Exec (m : ExecuteMsg)
  deriving DecidableEq, Repr

/-- Run one invocation, returning the candidate post-storage and response. -/
def applyMsg (api : String → Option String) (storage : Option State)
    (env : Env) (info : MessageInfo) :
    Msg → Except ContractError (Option State × Response)
  | .Inst m => instantiate storage env info m
  | .Exec m => execute api storage env info m

/-- The host's atomic commit: on success the returned storage is installed,
on failure the invocation's effects are discarded wholesale. -/
def step (api : String → Option String) (storage : Option State) (env : Env)
    (info : MessageInfo) (m : Msg) : Option State × Except ContractError Response :=
  match applyMsg api storage env info m with
  | .ok (st, r) => (st, .ok r)
  | .error e => (storage, .error e)

/-- Storage contents reachable from the uninitialized contract through the
public operations, under a fixed validation primitive. -/
inductive Reachable (api : String → Option String) : Option State → Prop where
  | init : Reachable api none
  | next : ∀ {s : Option State} (env : Env) (info : MessageInfo) (m : Msg),
      Reachable api s → Reachable api (step api s env info m).1

/-- Spec-side fund comparison ("attached funds must exactly equal
`counter_offer` as a multiset ... order-independent"): equality of the two
lists as multisets. -/
def fundsMatchSpec (offer expected : List Coin) : Prop :=
  (offer : Multiset Coin) = (expected : Multiset Coin)

instance (offer expected : List Coin) : Decidable (fundsMatchSpec offer expected) := by
  unfold fundsMatchSpec
  infer_instance

/-- A sample active record used to instantiate the theorems at concrete
inputs: created by "creator", currently owned by "owner", collateral of one
coin, a two-coin counter-offer, expiring at height 100. -/
def sampleState : State :=
  { creator := "creator", owner := "owner",
    collateral := [{ denom := "B", amount := 1 }],
    counter_offer := [{ denom := "A", amount := 40 }, { denom := "C", amount := 2 }],
    expires := 100 }

/-- A record whose counter-offer repeats a denomination, as persisted
verbatim by `instantiate` from an unvalidated message. -/
def dupState : State :=
  { creator := "creator", owner := "creator",
    collateral := [{ denom := "B", amount := 1 }],
    counter_offer := [{ denom := "A", amount := 1 }, { denom := "A", amount := 1 }],
    expires := 10 }

/-- Claim C3: burn fails with `OptionNotExpired{expires}` before expiry,
fails with `FundsSentWithBurn` when expired but funds are attached, and
otherwise emits exactly one transfer of the collateral to the creator and
deletes the record; the outcome never depends on the caller's identity
(the right-hand side does not mention `info.sender`). -/
theorem C3_burn_behavior (st : State) (env : Env) (info : MessageInfo) :
    execute_burn (some st) env info =
      if env.blockHeight < st.expires then
        .error (.OptionNotExpired st.expires)
      else if info.funds = [] then
        .ok (none, { messages := [BankMsg.Send st.creator st.collateral],
                     attributes := [("action", "burn")] })
      else
        .error .FundsSentWithBurn := by
  by_cases h1 : env.blockHeight < st.expires
  · simp [execute_burn, load, h1]
  · cases h2 : info.funds <;> simp [execute_burn, load, h1, h2]

/-- Claim C4: instantiate with `expires <= now` fails with
`OptionExpired{expired}` and leaves the committed storage unchanged (so no
record is persisted); with `expires > now` it persists a record with
`creator = owner = sender`, `collateral = funds`, `counter_offer` and
`expires` as given, emitting no outbound transfer instructions. -/
theorem C4_instantiate_spec (api : String → Option String) (storage : Option State)
    (env : Env) (info : MessageInfo) (msg : InstantiateMsg) :
    (msg.expires ≤ env.blockHeight →
      instantiate storage env info msg = .error (.OptionExpired msg.expires) ∧
      (step api storage env info (.Inst msg)).1 = storage) ∧
    (env.blockHeight < msg.expires →
      instantiate storage env info msg =
        .ok (some { creator := info.sender, owner := info.sender,
                    collateral := info.funds, counter_offer := msg.counter_offer,
                    expires := msg.expires },
             { messages := [], attributes := [] })) := by
  constructor
  · intro h
    refine ⟨by simp [instantiate, h], ?_⟩
    simp [step, applyMsg, instantiate, h]
  · intro h
    have h2 : ¬ msg.expires ≤ env.blockHeight := by omega
    simp [instantiate, h2, Response.empty]

/-- Witness for C4 at a concrete expired creation attempt. -/
theorem C4_instantiate_spec_witness :
    instantiate none { blockHeight := 5 }
        { sender := "creator", funds := [{ denom := "B", amount := 1 }] }
        { counter_offer := [{ denom := "A", amount := 40 }], expires := 3 } =
      .error (.OptionExpired 3) ∧
    (step (fun s => some s) none { blockHeight := 5 }
        { sender := "creator", funds := [{ denom := "B", amount := 1 }] }
        (.Inst { counter_offer := [{ denom := "A", amount := 40 }], expires := 3 })).1 =
      none :=
  (C4_instantiate_spec (fun s => some s) none { blockHeight := 5 }
      { sender := "creator", funds := [{ denom := "B", amount := 1 }] }
      { counter_offer := [{ denom := "A", amount := 40 }], expires := 3 }).1
    (by decide)

/-- Claim C2: a successful exercise (caller is the owner, before expiry,
funds equal to the counter-offer) emits exactly two transfer instructions,
counter-offer to creator first and collateral to owner second, and deletes
the record, so a subsequent query fails with not-found. -/
theorem C2_exercise_success (st : State) (env : Env) (info : MessageInfo)
    (hown : info.sender = st.owner) (hexp : env.blockHeight < st.expires)
    (hfunds : info.funds = st.counter_offer) :
    execute_execute (some st) env info =
      .ok (none, { messages := [BankMsg.Send st.creator st.counter_offer,
                                BankMsg.Send st.owner st.collateral],
                   attributes := [("action", "execute")] }) ∧
    query_config none = .error .NotFound := by
  have h2 : ¬ st.expires ≤ env.blockHeight := by omega
  exact ⟨by simp [execute_execute, load, hown, h2, hfunds], rfl⟩

/-- Witness for C2 on the sample record at height 50 with matching funds. -/
theorem C2_exercise_success_witness :
    execute_execute (some sampleState) { blockHeight := 50 }
        { sender := "owner", funds := sampleState.counter_offer } =
      .ok (none, { messages := [BankMsg.Send sampleState.creator sampleState.counter_offer,
                                BankMsg.Send sampleState.owner sampleState.collateral],
                   attributes := [("action", "execute")] }) ∧
    query_config none = .error .NotFound :=
  C2_exercise_success sampleState { blockHeight := 50 }
    { sender := "owner", funds := sampleState.counter_offer } rfl (by decide) rfl

/-- Claim C5: instantiate never reads the existing storage, so with a live
record in place and a future expiry it succeeds and replaces the stored
record with the newly constructed one. -/
theorem C5_instantiate_overwrites (old : State) (env : Env) (info : MessageInfo)
    (msg : InstantiateMsg) (h : env.blockHeight < msg.expires) :
    instantiate (some old) env info msg =
      .ok (some { creator := info.sender, owner := info.sender,
                  collateral := info.funds, counter_offer := msg.counter_offer,
                  expires := msg.expires },
           { messages := [], attributes := [] }) := by
  have h2 : ¬ msg.expires ≤ env.blockHeight := by omega
  simp [instantiate, h2, Response.empty]

/-- Witness for C5: re-instantiating over the live sample record. -/
theorem C5_instantiate_overwrites_witness :
    instantiate (some sampleState) { blockHeight := 5 }
        { sender := "eve", funds := [{ denom := "D", amount := 7 }] }
        { counter_offer := [{ denom := "E", amount := 9 }], expires := 42 } =
      .ok (some { creator := "eve", owner := "eve",
                  collateral := [{ denom := "D", amount := 7 }],
                  counter_offer := [{ denom := "E", amount := 9 }],
                  expires := 42 },
           { messages := [], attributes := [] }) :=
  C5_instantiate_overwrites sampleState { blockHeight := 5 }
    { sender := "eve", funds := [{ denom := "D", amount := 7 }] }
    { counter_offer := [{ denom := "E", amount := 9 }], expires := 42 } (by decide)

/-- Claim C6: transfer fails with `Unauthorized` exactly when the caller is
not the current owner; when the caller is the owner and the recipient passes
identity validation it succeeds — with no condition on the current time
(the environment, including the block height, is arbitrary). -/
theorem C6_transfer_auth (api : String → Option String) (st : State) (env : Env)
    (info : MessageInfo) (recipient : String) :
    (execute_transfer api (some st) env info recipient = .error .Unauthorized ↔
      info.sender ≠ st.owner) ∧
    (info.sender = st.owner → ∀ v, api recipient = some v →
      execute_transfer api (some st) env info recipient =
        .ok (some { st with owner := v },
             { messages := [],
               attributes := [("action", "transfer"), ("owner", recipient)] })) := by
  constructor
  · constructor
    · intro h
      by_contra hne
      rcases hv : api recipient with _ | v
      · simp [execute_transfer, load, hne, hv] at h
      · simp [execute_transfer, load, hne, hv] at h
    · intro h
      simp [execute_transfer, load, h]
  · intro h v hv
    simp [execute_transfer, load, h, hv]

/-- Witness for C6: the owner transfers at height 200, past the sample
record's expiry of 100, and still succeeds. -/
theorem C6_transfer_auth_witness :
    execute_transfer (fun s => some s) (some sampleState) { blockHeight := 200 }
        { sender := "owner", funds := [] } "newowner" =
      .ok (some { sampleState with owner := "newowner" },
           { messages := [],
             attributes := [("action", "transfer"), ("owner", "newowner")] }) :=
  (C6_transfer_auth (fun s => some s) sampleState { blockHeight := 200 }
      { sender := "owner", funds := [] } "newowner").2 rfl "newowner" rfl

/-- Claim C7: every failing invocation of any mutating command commits no
state change — the host installs the prior storage — and returns the typed
error as a pure value carrying no transfer instructions. -/
theorem C7_failure_atomic (api : String → Option String) (storage : Option State)
    (env : Env) (info : MessageInfo) (m : Msg) (e : ContractError)
    (h : applyMsg api storage env info m = .error e) :
    step api storage env info m = (storage, .error e) := by
  simp [step, h]

/-- Witness for C7: a burn attempt before expiry leaves the record as it
was and surfaces `OptionNotExpired`. -/
theorem C7_failure_atomic_witness :
    step (fun s => some s) (some sampleState) { blockHeight := 50 }
        { sender := "anyone", funds := [] } (.Exec .Burn) =
      (some sampleState, .error (.OptionNotExpired 100)) :=
  C7_failure_atomic (fun s => some s) (some sampleState) { blockHeight := 50 }
    { sender := "anyone", funds := [] } (.Exec .Burn) (.OptionNotExpired 100) rfl

/-- Claim C9: a successful transfer rewrites only the `owner` field to the
validated recipient; `creator`, `collateral`, `counter_offer` and `expires`
are unchanged and no transfer instructions are emitted. -/
theorem C9_transfer_frame (api : String → Option String) (st : State) (env : Env)
    (info : MessageInfo) (recipient v : String)
    (hown : info.sender = st.owner) (hval : api recipient = some v) :
    execute_transfer api (some st) env info recipient =
      .ok (some { creator := st.creator, owner := v, collateral := st.collateral,
                  counter_offer := st.counter_offer, expires := st.expires },
           { messages := [],
             attributes := [("action", "transfer"), ("owner", recipient)] }) := by
  simp [execute_transfer, load, hown, hval]

/-- Witness for C9 on the sample record. -/
theorem C9_transfer_frame_witness :
    execute_transfer (fun s => some s) (some sampleState) { blockHeight := 7 }
        { sender := "owner", funds := [] } "alice" =
      .ok (some { creator := sampleState.creator, owner := "alice",
                  collateral := sampleState.collateral,
                  counter_offer := sampleState.counter_offer,
                  expires := sampleState.expires },
           { messages := [],
             attributes := [("action", "transfer"), ("owner", "alice")] }) :=
  C9_transfer_frame (fun s => some s) sampleState { blockHeight := 7 }
    { sender := "owner", funds := [] } "alice" "alice" rfl rfl

/-- Claim C10: exercise checks ownership first and expiry second, so a
non-owner always receives `Unauthorized` regardless of time and funds, and
an owner calling at or past expiry receives `OptionExpired` regardless of
funds. -/
theorem C10_exercise_check_order (st : State) (env : Env) (info : MessageInfo) :
    (info.sender ≠ st.owner →
      execute_execute (some st) env info = .error .Unauthorized) ∧
    (info.sender = st.owner → st.expires ≤ env.blockHeight →
      execute_execute (some st) env info = .error (.OptionExpired st.expires)) := by
  constructor
  · intro h
    simp [execute_execute, load, h]
  · intro h1 h2
    simp [execute_execute, load, h1, h2]

/-- Witness for C10: a non-owner calling after expiry with mismatched funds
receives `Unauthorized`. -/
theorem C10_exercise_check_order_witness :
    execute_execute (some sampleState) { blockHeight := 200 }
        { sender := "mallory", funds := [] } = .error .Unauthorized :=
  (C10_exercise_check_order sampleState { blockHeight := 200 }
      { sender := "mallory", funds := [] }).1 (by decide)

/-- Claim C1 counterexample: the owner exercises before expiry with funds
equal to the counter-offer as a multiset but listed in the opposite order,
and the call fails with `CounterOfferMismatch` — the source compares the two
coin vectors with `!=`, which is order-sensitive, so success is not
order-independent as the claim states. -/
theorem C1_counterexample :
    ({ sender := "owner",
       funds := [{ denom := "C", amount := 2 }, { denom := "A", amount := 40 }] } :
        MessageInfo).sender = sampleState.owner ∧
    (50 : Nat) < sampleState.expires ∧
    fundsMatchSpec [{ denom := "C", amount := 2 }, { denom := "A", amount := 40 }]
      sampleState.counter_offer ∧
    execute_execute (some sampleState) { blockHeight := 50 }
        { sender := "owner",
          funds := [{ denom := "C", amount := 2 }, { denom := "A", amount := 40 }] } =
      .error (.CounterOfferMismatch
        [{ denom := "C", amount := 2 }, { denom := "A", amount := 40 }]
        [{ denom := "A", amount := 40 }, { denom := "C", amount := 2 }]) := by
  refine ⟨rfl, by decide, ?_, by rfl⟩
  rw [fundsMatchSpec, sampleState, Multiset.coe_eq_coe]
  exact List.Perm.swap _ _ _

/-- Claim C1 amended: for the owner before expiry, the exercise succeeds if
and only if the attached funds equal the counter-offer as a list — same
pairs in the same order — and on any list inequality (including a mere
permutation) it fails with `CounterOfferMismatch` carrying the attached
funds and the expected counter-offer. -/
theorem C1_exercise_exact_list_eq (st : State) (env : Env) (info : MessageInfo)
    (hown : info.sender = st.owner) (hexp : env.blockHeight < st.expires) :
    ((∃ out, execute_execute (some st) env info = .ok out) ↔
      info.funds = st.counter_offer) ∧
    (info.funds ≠ st.counter_offer →
      execute_execute (some st) env info =
        .error (.CounterOfferMismatch info.funds st.counter_offer)) := by
  have h2 : ¬ st.expires ≤ env.blockHeight := by omega
  constructor
  · constructor
    · rintro ⟨out, hout⟩
      by_contra hne
      simp [execute_execute, load, hown, h2, hne] at hout
    · intro h
      refine ⟨(none,
        { messages := [BankMsg.Send st.creator st.counter_offer,
                       BankMsg.Send st.owner st.collateral],
          attributes := [("action", "execute")] }), ?_⟩
      simp [execute_execute, load, hown, h2, h]
  · intro h
    simp [execute_execute, load, hown, h2, h]

/-- Witness for the amended C1 on the sample record with funds listed in
the stored order. -/
theorem C1_exercise_exact_list_eq_witness :
    ((∃ out, execute_execute (some sampleState) { blockHeight := 50 }
        { sender := "owner", funds := sampleState.counter_offer } = .ok out) ↔
      ({ sender := "owner", funds := sampleState.counter_offer } :
        MessageInfo).funds = sampleState.counter_offer) ∧
    (({ sender := "owner", funds := sampleState.counter_offer } :
        MessageInfo).funds ≠ sampleState.counter_offer →
      execute_execute (some sampleState) { blockHeight := 50 }
          { sender := "owner", funds := sampleState.counter_offer } =
        .error (.CounterOfferMismatch sampleState.counter_offer
          sampleState.counter_offer)) :=
  C1_exercise_exact_list_eq sampleState { blockHeight := 50 }
    { sender := "owner", funds := sampleState.counter_offer } rfl (by decide)

/-- Claim C8 counterexample: a record whose counter-offer repeats the
denomination "A" is reachable in one instantiate step from the empty
storage, because instantiate persists the message's coin list verbatim with
no duplicate check. -/
theorem C8_counterexample :
    Reachable (fun s => some s) (some dupState) ∧
    ¬ (dupState.counter_offer.map Coin.denom).Nodup := by
  refine ⟨?_, by decide⟩
  exact Reachable.next { blockHeight := 0 }
    { sender := "creator", funds := [{ denom := "B", amount := 1 }] }
    (.Inst { counter_offer := [{ denom := "A", amount := 1 },
                               { denom := "A", amount := 1 }],
             expires := 10 })
    Reachable.init

/-- Claim C8 amended: in every reachable record the amounts in `collateral`
and `counter_offer` are non-negative (amounts are natural numbers, as the
source's `Uint128` is unsigned), but the no-duplicate-denomination half of
the claim does not hold: instantiate performs no validation, so a reachable
record may repeat a denomination. -/
theorem C8_amounts_nonneg (api : String → Option String) (s : Option State)
    (_hs : Reachable api s) (st : State) (_heq : s = some st) :
    (∀ c ∈ st.collateral, 0 ≤ c.amount) ∧
    ∀ c ∈ st.counter_offer, 0 ≤ c.amount :=
  ⟨fun c _ => Nat.zero_le c.amount, fun c _ => Nat.zero_le c.amount⟩

/-- Witness for the amended C8 on a reachable record. -/
theorem C8_amounts_nonneg_witness :
    (∀ c ∈ dupState.collateral, 0 ≤ c.amount) ∧
    ∀ c ∈ dupState.counter_offer, 0 ≤ c.amount :=
  C8_amounts_nonneg (fun s => some s) _
    (Reachable.next { blockHeight := 0 }
      { sender := "creator", funds := [{ denom := "B", amount := 1 }] }
      (.Inst { counter_offer := [{ denom := "A", amount := 1 },
                                 { denom := "A", amount := 1 }],
               expires := 10 })
      Reachable.init)
    dupState rfl

end OptionContract
